import Mathlib

/-!
Shallow embedding of `src/main.py` (a tool-calling conversational agent with
four deterministic skills: weather lookup, unit conversion, currency
conversion, trip planning) and proofs of the specified properties.

Numeric values are modelled as exact rationals (`ℚ`); Python dicts become
association lists queried with `List.lookup`; JSON-dict results become
inductive result types; external HTTP collaborators become explicit
function parameters returning an outcome datatype.
-/

/-- Python's `str.strip()`: remove whitespace from both ends. -/
def pyStrip (s : String) : String :=
  String.mk (((s.data.dropWhile Char.isWhitespace).reverse.dropWhile
    Char.isWhitespace).reverse)

/-- Python's `str.lower()` (ASCII case folding, which covers every key the
code compares against). -/
def pyLower (s : String) : String :=
  String.mk (s.data.map Char.toLower)

/-- Python's `str.upper()` (ASCII case folding). -/
def pyUpper (s : String) : String :=
  String.mk (s.data.map Char.toUpper)

/-- Alias table from `ALIASES` in `src/main.py`: user-facing unit spellings
to canonical unit identifiers. -/
def ALIASES : List (String × String) :=
  [("mi", "mile"), ("miles", "mile"), ("mile", "mile"),
   ("km", "kilometer"), ("kilometers", "kilometer"), ("kilometer", "kilometer"),
   ("kg", "kilogram"), ("kilograms", "kilogram"), ("kilogram", "kilogram"),
   ("lb", "pound"), ("lbs", "pound"), ("pounds", "pound"), ("pound", "pound"),
   ("c", "celsius"), ("°c", "celsius"), ("celsius", "celsius"),
   ("f", "fahrenheit"), ("°f", "fahrenheit"), ("fahrenheit", "fahrenheit")]

/-- Factor table from `FACTORS` in `src/main.py`: one canonical direction per
multiplicative pair. -/
def FACTORS : List ((String × String) × ℚ) :=
  [(("mile", "kilometer"), 1.60934), (("kilogram", "pound"), 2.20462)]

/-- Result of `convert_units`: either the error JSON dict or the success dict
with the normalized units and the converted value. -/
inductive UnitResult
  | error (code : String)
  | ok (value : ℚ) (from_unit to_unit : String) (converted_value : ℚ)
deriving DecidableEq, Repr

/-- `convert_units(value, from_unit, to_unit)` from `src/main.py`.
The `float(value)` coercion always succeeds on a numeric input, so the
modelled input is already `ℚ` and the `invalid_value` branch is not reachable
here. -/
def convert_units (value : ℚ) (from_unit to_unit : String) : UnitResult :=
  let from_normalized := (List.lookup (pyLower (pyStrip from_unit)) ALIASES).getD ""
  let to_normalized := (List.lookup (pyLower (pyStrip to_unit)) ALIASES).getD ""
  if from_normalized = "" ∨ to_normalized = "" then
    UnitResult.error "unsupported"
  else if from_normalized = to_normalized then
    UnitResult.ok value from_normalized to_normalized value
  else if (from_normalized = "celsius" ∧ to_normalized = "fahrenheit") ∨
          (from_normalized = "fahrenheit" ∧ to_normalized = "celsius") then
    let converted_value :=
      if from_normalized = "celsius" then value * 9 / 5 + 32
      else (value - 32) * 5 / 9
    UnitResult.ok value from_normalized to_normalized converted_value
  else
    match List.lookup (from_normalized, to_normalized) FACTORS with
    | some factor =>
        UnitResult.ok value from_normalized to_normalized (value * factor)
    | none =>
        match List.lookup (to_normalized, from_normalized) FACTORS with
        | some factor =>
            UnitResult.ok value from_normalized to_normalized (value / factor)
        | none => UnitResult.error "unsupported"

/-- Projection: the converted value of a successful unit conversion. -/
def UnitResult.converted? : UnitResult → Option ℚ
  | UnitResult.error _ => none
  | UnitResult.ok _ _ _ c => some c

/-- Outcome of the HTTP call to the currency-rate collaborator
(`requests.get` on the Frankfurter URL): either the request raises a
transport-level exception, or it yields a response with a status code and a
JSON body holding a rates mapping, a date and a base code. -/
inductive HttpOutcome
  | transportFailure
  | response (status : Nat) (rates : List (String × ℚ)) (date base : String)
deriving DecidableEq, Repr

/-- Result of `convert_currency`: the error JSON dict, the short-circuit
success dict (no date/base fields), or the full success dict. -/
inductive CurrencyResult
  | error (code : String)
  | ok (amount : ℚ) (fromCode toCode : String) (rate : ℚ) (converted : ℚ)
       (date base : Option String)
deriving DecidableEq, Repr

/-- `convert_currency(amount, from_currency, to_currency)` from
`src/main.py`, parametrized by the rate-lookup collaborator. The second
component counts the calls made to the collaborator. The whole network
section sits inside one `try` whose handler is `except Exception:
return {"error": "api_error"}`, so a transport failure is reported as
`api_error`. -/
def convert_currency (lookup : String → String → HttpOutcome)
    (amount : ℚ) (from_currency to_currency : String) : CurrencyResult × Nat :=
  let from_code := pyUpper (pyStrip from_currency)
  let to_code := pyUpper (pyStrip to_currency)
  if from_code = "" ∨ to_code = "" then
    (CurrencyResult.error "unsupported_currency", 0)
  else if from_code = to_code then
    (CurrencyResult.ok amount from_code to_code 1 amount none none, 0)
  else
    match lookup from_code to_code with
    | HttpOutcome.transportFailure => (CurrencyResult.error "api_error", 1)
    | HttpOutcome.response status rates date base =>
        if status ≠ 200 then (CurrencyResult.error "api_error", 1)
        else
          match List.lookup to_code rates with
          | none => (CurrencyResult.error "unsupported_currency", 1)
          | some rate =>
              (CurrencyResult.ok amount from_code to_code rate
                (amount * rate) (some date) (some base), 1)

/-- Outcome of the HTTP call to the weather collaborator. -/
inductive WeatherOutcome
  | transportFailure
  | response (status : Nat) (temp : Option ℚ) (description : Option String)
deriving DecidableEq, Repr

/-- Result of `get_weather`: the error JSON dict or the simplified weather
dict. -/
inductive WeatherResult
  | error (code : String)
  | ok (city : String) (temperature_c : Option ℚ) (description : Option String)
deriving DecidableEq, Repr

/-- `get_weather(city)` from `src/main.py`, parametrized by the weather
collaborator. `requests.get` raising is caught as `RequestException` →
`network_error`; a 200 response is simplified; any other status →
`"Could not get weather"`. -/
def get_weather (weatherApi : String → WeatherOutcome) (city : String) :
    WeatherResult :=
  match weatherApi city with
  | WeatherOutcome.transportFailure => WeatherResult.error "network_error"
  | WeatherOutcome.response status temp description =>
      if status = 200 then WeatherResult.ok city temp description
      else WeatherResult.error "Could not get weather"

/-- The activity list of the `"general"` interest (also the fallback list the
generator uses for a theme missing from the bank). -/
def generalActivities : List String :=
  ["Orientation walk & iconic landmark",
   "Top-rated museum or cultural site",
   "Sunset viewpoint or waterfront stroll",
   "Local market + street snacks",
   "Signature district exploration"]

/-- Interest bank from `_INTEREST_BANK` in `src/main.py`: interest category →
ordered activity list. -/
def _INTEREST_BANK : List (String × List String) :=
  [("general", generalActivities),
   ("art",
    ["Major art museum/gallery",
     "Street art / contemporary scene",
     "Artist studio or design district"]),
   ("history",
    ["Old town & heritage sites",
     "Fortresses/ruins & guided history tour",
     "Archaeology or national museum"]),
   ("food",
    ["Market/tasting tour",
     "Local cooking class",
     "Regional specialty dinner"]),
   ("hiking",
    ["National park trail (half-day)",
     "Scenic ridge or lake loop",
     "Sunrise/sunset hike & viewpoints"]),
   ("beach",
    ["Relax on popular beach",
     "Snorkel/boat excursion",
     "Beach sunset + seaside dinner"])]

/-- `_sanitize_interests(interests)` from `src/main.py`. -/
def _sanitize_interests (interests : List String) : List String :=
  if interests = [] then ["general"]
  else
    let normalized_interests := interests.map (fun interest =>
      let key := pyLower (pyStrip interest)
      if (List.lookup key _INTEREST_BANK).isSome then key else "general")
    if normalized_interests = [] then ["general"] else normalized_interests

/-- One entry of the generated itinerary. -/
structure ItineraryDay where
  day : Nat
  theme : String
  morning : String
  afternoon : String
  evening : String
deriving DecidableEq, Repr

/-- Result of `plan_trip`: the error JSON dict or the success dict. -/
inductive TripResult
  | error (code : String)
  | ok (destination : String) (duration_days : Int) (interests : List String)
       (itinerary : List ItineraryDay) (note : String)
deriving DecidableEq, Repr

/-- `plan_trip(destination, duration_days, interests)` from `src/main.py`.
The duration argument is modelled as `Int`: the dispatcher passes either the
model's integer or its default `0`, and Python's `int()` on an `int` is the
identity, so the `invalid_duration` branch is not reachable from an integer
input. `range(1, duration_int + 1)` becomes `List.range` shifted by one. -/
def plan_trip (destination : String) (duration_days : Int)
    (interests : List String) : TripResult :=
  if destination = "" then TripResult.error "missing_destination"
  else
    let duration_int : Int := max 1 (min duration_days 30)
    let normalized_interests := _sanitize_interests interests
    let itinerary_days := (List.range duration_int.toNat).map (fun i =>
      let day_index := i + 1
      let theme := normalized_interests.getD
        ((day_index - 1) % normalized_interests.length) ""
      let idea_list := (List.lookup theme _INTEREST_BANK).getD generalActivities
      ItineraryDay.mk day_index theme
        (idea_list.getD ((day_index * 1) % idea_list.length) "")
        (idea_list.getD ((day_index * 2) % idea_list.length) "")
        (idea_list.getD ((day_index * 3) % idea_list.length) ""))
    TripResult.ok destination duration_int normalized_interests itinerary_days
      "Offline generator: swap with a real travel API if desired."

/-- Projection: the clamped duration of a successful itinerary. -/
def TripResult.duration? : TripResult → Option Int
  | TripResult.error _ => none
  | TripResult.ok _ d _ _ _ => some d

/-- Projection: the sanitized interests of a successful itinerary. -/
def TripResult.interests? : TripResult → Option (List String)
  | TripResult.error _ => none
  | TripResult.ok _ _ ints _ _ => some ints

/-- Projection: the per-day breakdown of a successful itinerary. -/
def TripResult.itinerary? : TripResult → Option (List ItineraryDay)
  | TripResult.error _ => none
  | TripResult.ok _ _ _ it _ => some it

/-- The external collaborators the tools may call (weather and currency-rate
HTTP endpoints), modelled as explicit functions. -/
structure Collaborators where
  weatherApi : String → WeatherOutcome
  rateApi : String → String → HttpOutcome

/-- The untrusted argument mapping of a tool call (`args` dict in
`src/main.py`): each expected key either present or absent. `args.get(k, d)`
becomes `Option.getD`. -/
structure ToolArgs where
  city : Option String
  value : Option ℚ
  from_unit : Option String
  to_unit : Option String
  amount : Option ℚ
  from_currency : Option String
  to_currency : Option String
  destination : Option String
  duration_days : Option Int
  interests : Option (List String)

/-- A serialized tool result as appended to the message log: the JSON string
produced by one of the four tools, or the unknown-tool error dict. -/
inductive ToolOut
  | weatherOut (r : WeatherResult)
  | unitOut (r : UnitResult)
  | currencyOut (r : CurrencyResult)
  | tripOut (r : TripResult)
  | errorOut (code : String)
deriving DecidableEq, Repr

/-- `_call_tool(name, args)` from `src/main.py`: route a named tool call with
defaulted arguments; an unrecognized name yields the `unknown_tool` error
dict. -/
def _call_tool (collab : Collaborators) (name : String) (args : ToolArgs) :
    ToolOut :=
  if name = "get_weather" then
    ToolOut.weatherOut (get_weather collab.weatherApi (args.city.getD ""))
  else if name = "convert_units" then
    ToolOut.unitOut (convert_units (args.value.getD 0) (args.from_unit.getD "")
      (args.to_unit.getD ""))
  else if name = "convert_currency" then
    ToolOut.currencyOut (convert_currency collab.rateApi (args.amount.getD 0)
      (args.from_currency.getD "") (args.to_currency.getD "")).1
  else if name = "plan_trip" then
    ToolOut.tripOut (plan_trip (args.destination.getD "")
      (args.duration_days.getD 0) (args.interests.getD []))
  else ToolOut.errorOut "unknown_tool"

/-- One entry of the orchestrator's message log. The orchestrator appends
only `{"role": "function", "name": ..., "content": ...}` entries after the
seed; the final assistant text is returned, not appended. -/
inductive Message
  | system (content : String)
  | user (content : String)
  | assistant (content : String)
  | function (name : String) (content : ToolOut)
deriving DecidableEq, Repr

/-- One response of the model collaborator: either a plain assistant message
(whose content may be absent, `message.content or ""`), or a tool call
(`message.function_call`) naming a tool and carrying parsed arguments. -/
inductive ModelResponse
  | text (content : Option String)
  | toolCall (name : String) (args : ToolArgs)

/-- Whether a model response carries a tool call
(`getattr(message, "function_call", None)` is truthy). -/
def ModelResponse.isToolCall : ModelResponse → Bool
  | ModelResponse.text _ => false
  | ModelResponse.toolCall _ _ => true

/-- The fixed fallback string `run_conversation` returns when the hop cap is
reached. -/
def FALLBACK : String :=
  "I made too many tool calls for this request. Please refine your question."

/-- The hop cap `max_tool_hops = 6` from `src/main.py`. -/
def max_tool_hops : Nat := 6

/-- What `run_conversation` leaves behind: the returned string, the number of
requests made to the model collaborator, and the final state of the (mutated,
append-only) message log. -/
structure RunOutcome where
  result : String
  requests : Nat
  log : List Message

/-- The `for _ in range(max_tool_hops)` loop of `run_conversation` from
`src/main.py`, with the remaining iteration budget explicit. Each iteration
sends the log to the model collaborator; a tool-call response appends the
tool's result tagged with the tool's name and continues; a plain response
returns its text; an exhausted budget returns `FALLBACK`. -/
def run_loop (collab : Collaborators) (model : List Message → ModelResponse) :
    Nat → List Message → RunOutcome
  | 0, messages => RunOutcome.mk FALLBACK 0 messages
  | Nat.succ fuel, messages =>
    match model messages with
    | ModelResponse.text content => RunOutcome.mk (content.getD "") 1 messages
    | ModelResponse.toolCall tool_name tool_args =>
        let tool_output := _call_tool collab tool_name tool_args
        let rest := run_loop collab model fuel
          (messages ++ [Message.function tool_name tool_output])
        RunOutcome.mk rest.result (rest.requests + 1) rest.log

/-- `run_conversation(user_input)` from `src/main.py`. The system prompt is
composed from environment configuration outside the modelled core, so it is a
parameter here. -/
def run_conversation (collab : Collaborators)
    (model : List Message → ModelResponse) (system_prompt user_input : String) :
    RunOutcome :=
  run_loop collab model max_tool_hops
    [Message.system system_prompt, Message.user user_input]

/-- An argument mapping with every key absent (used as a concrete input). -/
def emptyArgs : ToolArgs :=
  ToolArgs.mk none none none none none none none none none none

/-- Concrete collaborators whose every HTTP call fails at transport level. -/
def offlineCollaborators : Collaborators :=
  Collaborators.mk (fun _ => WeatherOutcome.transportFailure)
    (fun _ _ => HttpOutcome.transportFailure)

/-- A concrete model collaborator that issues a tool call on every
response. -/
def alwaysToolCallModel : List Message → ModelResponse :=
  fun _ => ModelResponse.toolCall "plan_trip" emptyArgs

/-- A concrete model collaborator that issues exactly one tool call (on the
2-message seed log) and then answers with plain text. -/
def oneToolCallModel : List Message → ModelResponse :=
  fun msgs =>
    if msgs.length ≤ 2 then ModelResponse.toolCall "plan_trip" emptyArgs
    else ModelResponse.text (some "done")

/-- Whether a log entry is an assistant message. -/
def Message.isAssistant : Message → Bool
  | Message.assistant _ => true
  | _ => false

/-! ## Helper lemmas for the multiplicative unit pairs -/

theorem convert_units_mile_km (v : ℚ) : convert_units v "mile" "kilometer" =
    UnitResult.ok v "mile" "kilometer" (v * 1.60934) := by
  have h1 : (List.lookup (pyLower (pyStrip "mile")) ALIASES).getD "" = "mile" := by
    decide
  have h2 : (List.lookup (pyLower (pyStrip "kilometer")) ALIASES).getD "" =
      "kilometer" := by decide
  have h3 : List.lookup ("mile", "kilometer") FACTORS = some 1.60934 := by rfl
  simp only [convert_units, h1, h2, h3]
  rw [if_neg (by decide), if_neg (by decide), if_neg (by decide)]

theorem convert_units_km_mile (v : ℚ) : convert_units v "kilometer" "mile" =
    UnitResult.ok v "kilometer" "mile" (v / 1.60934) := by
  have h1 : (List.lookup (pyLower (pyStrip "kilometer")) ALIASES).getD "" =
      "kilometer" := by decide
  have h2 : (List.lookup (pyLower (pyStrip "mile")) ALIASES).getD "" = "mile" := by
    decide
  have h3 : List.lookup ("kilometer", "mile") FACTORS = none := by rfl
  have h4 : List.lookup ("mile", "kilometer") FACTORS = some 1.60934 := by rfl
  simp only [convert_units, h1, h2, h3, h4]
  rw [if_neg (by decide), if_neg (by decide), if_neg (by decide)]

theorem convert_units_kg_lb (v : ℚ) : convert_units v "kilogram" "pound" =
    UnitResult.ok v "kilogram" "pound" (v * 2.20462) := by
  have h1 : (List.lookup (pyLower (pyStrip "kilogram")) ALIASES).getD "" =
      "kilogram" := by decide
  have h2 : (List.lookup (pyLower (pyStrip "pound")) ALIASES).getD "" = "pound" := by
    decide
  have h3 : List.lookup ("kilogram", "pound") FACTORS = some 2.20462 := by rfl
  simp only [convert_units, h1, h2, h3]
  rw [if_neg (by decide), if_neg (by decide), if_neg (by decide)]

theorem convert_units_lb_kg (v : ℚ) : convert_units v "pound" "kilogram" =
    UnitResult.ok v "pound" "kilogram" (v / 2.20462) := by
  have h1 : (List.lookup (pyLower (pyStrip "pound")) ALIASES).getD "" = "pound" := by
    decide
  have h2 : (List.lookup (pyLower (pyStrip "kilogram")) ALIASES).getD "" =
      "kilogram" := by decide
  have h3 : List.lookup ("pound", "kilogram") FACTORS = none := by rfl
  have h4 : List.lookup ("kilogram", "pound") FACTORS = some 2.20462 := by rfl
  simp only [convert_units, h1, h2, h3, h4]
  rw [if_neg (by decide), if_neg (by decide), if_neg (by decide)]

/-- C4: for every numeric value and every pair of unit spellings that
normalize (case-insensitive, trimmed, via the alias table) to the same
supported unit, `convert_units` returns a success result whose converted
value equals the input value exactly. -/
theorem convert_units_same_unit_identity (v : ℚ) (u₁ u₂ n : String)
    (h₁ : (List.lookup (pyLower (pyStrip u₁)) ALIASES).getD "" = n)
    (h₂ : (List.lookup (pyLower (pyStrip u₂)) ALIASES).getD "" = n)
    (hn : n ≠ "") :
    convert_units v u₁ u₂ = UnitResult.ok v n n v := by
  simp only [convert_units, h₁, h₂]
  rw [if_neg (by simp [hn])]
  simp

/-- Witness for C4 at value 7 and spellings `" MI "` / `"Miles"`, both
normalizing to `"mile"`. -/
theorem convert_units_same_unit_identity_witness :
    (List.lookup (pyLower (pyStrip " MI ")) ALIASES).getD "" = "mile" ∧
    (List.lookup (pyLower (pyStrip "Miles")) ALIASES).getD "" = "mile" ∧
    ("mile" : String) ≠ "" ∧
    convert_units 7 " MI " "Miles" = UnitResult.ok 7 "mile" "mile" 7 :=
  ⟨by decide, by decide, by decide,
   convert_units_same_unit_identity 7 " MI " "Miles" "mile"
     (by decide) (by decide) (by decide)⟩

/-- C5: for every supported multiplicative unit pair (mile/kilometer,
kilogram/pound) and every numeric value `v`, the reverse direction divides by
the same stored factor, so converting `v` from A to B and back (in either
order) recovers `v` — exactly, in the rational model, hence a fortiori within
floating-point tolerance. -/
theorem convert_units_roundtrip (v : ℚ) (A B : String)
    (h : (A, B) = ("mile", "kilometer") ∨ (A, B) = ("kilogram", "pound")) :
    ((convert_units v A B).converted?.bind
      (fun w => (convert_units w B A).converted?)) = some v ∧
    ((convert_units v B A).converted?.bind
      (fun w => (convert_units w A B).converted?)) = some v := by
  have hf : (1.60934 : ℚ) ≠ 0 := by norm_num
  have hg : (2.20462 : ℚ) ≠ 0 := by norm_num
  rcases h with h | h
  · have hA : A = "mile" := congrArg Prod.fst h
    have hB : B = "kilometer" := congrArg Prod.snd h
    subst hA; subst hB
    constructor
    · rw [convert_units_mile_km]
      simp only [UnitResult.converted?, Option.bind, convert_units_km_mile]
      rw [mul_div_assoc, div_self hf, mul_one]
    · rw [convert_units_km_mile]
      simp only [UnitResult.converted?, Option.bind, convert_units_mile_km]
      rw [div_mul_eq_mul_div, mul_div_assoc, div_self hf, mul_one]
  · have hA : A = "kilogram" := congrArg Prod.fst h
    have hB : B = "pound" := congrArg Prod.snd h
    subst hA; subst hB
    constructor
    · rw [convert_units_kg_lb]
      simp only [UnitResult.converted?, Option.bind, convert_units_lb_kg]
      rw [mul_div_assoc, div_self hg, mul_one]
    · rw [convert_units_lb_kg]
      simp only [UnitResult.converted?, Option.bind, convert_units_kg_lb]
      rw [div_mul_eq_mul_div, mul_div_assoc, div_self hg, mul_one]

/-- Witness for C5 at value 100 and the mile/kilometer pair. -/
theorem convert_units_roundtrip_witness :
    (((100 : ℚ), ("mile", "kilometer")) = (100, ("mile", "kilometer"))) ∧
    ((convert_units 100 "mile" "kilometer").converted?.bind
      (fun w => (convert_units w "kilometer" "mile").converted?)) = some 100 ∧
    ((convert_units 100 "kilometer" "mile").converted?.bind
      (fun w => (convert_units w "mile" "kilometer").converted?)) = some 100 :=
  ⟨rfl,
   (convert_units_roundtrip 100 "mile" "kilometer" (Or.inl rfl)).1,
   (convert_units_roundtrip 100 "mile" "kilometer" (Or.inl rfl)).2⟩

/-- C1 counterexample: at amount 5 and distinct non-empty codes "USD"/"EUR",
a transport-level failure of the rate-lookup call yields the error
`"api_error"`, not `"network_error"` as the claim states: the whole network
section of `convert_currency` sits in one `try` whose handler
`except Exception` returns `api_error`. -/
theorem convert_currency_transport_failure_is_api_error :
    (convert_currency (fun _ _ => HttpOutcome.transportFailure)
      5 "USD" "EUR").1 = CurrencyResult.error "api_error" ∧
    (convert_currency (fun _ _ => HttpOutcome.transportFailure)
      5 "USD" "EUR").1 ≠ CurrencyResult.error "network_error" := by
  constructor
  · decide
  · decide

/-- C1 (amended): for distinct non-empty normalized codes, a 200 response
missing the rate yields `"unsupported_currency"`, a non-200 response yields
`"api_error"`, and a transport-level failure of the rate-lookup call also
yields `"api_error"` (not `"network_error"`). -/
theorem convert_currency_error_branches
    (lookup : String → String → HttpOutcome) (amount : ℚ)
    (from_currency to_currency : String)
    (hfrom : pyUpper (pyStrip from_currency) ≠ "")
    (hto : pyUpper (pyStrip to_currency) ≠ "")
    (hne : pyUpper (pyStrip from_currency) ≠ pyUpper (pyStrip to_currency)) :
    (∀ rates date base,
      lookup (pyUpper (pyStrip from_currency)) (pyUpper (pyStrip to_currency))
          = HttpOutcome.response 200 rates date base →
      List.lookup (pyUpper (pyStrip to_currency)) rates = none →
      (convert_currency lookup amount from_currency to_currency).1
        = CurrencyResult.error "unsupported_currency") ∧
    (∀ status rates date base, status ≠ 200 →
      lookup (pyUpper (pyStrip from_currency)) (pyUpper (pyStrip to_currency))
          = HttpOutcome.response status rates date base →
      (convert_currency lookup amount from_currency to_currency).1
        = CurrencyResult.error "api_error") ∧
    (lookup (pyUpper (pyStrip from_currency)) (pyUpper (pyStrip to_currency))
          = HttpOutcome.transportFailure →
      (convert_currency lookup amount from_currency to_currency).1
        = CurrencyResult.error "api_error") := by
  refine ⟨?_, ?_, ?_⟩
  · intro rates date base hresp hrate
    simp only [convert_currency]
    rw [if_neg (by simp [hfrom, hto]), if_neg hne, hresp]
    simp [hrate]
  · intro status rates date base hstatus hresp
    simp only [convert_currency]
    rw [if_neg (by simp [hfrom, hto]), if_neg hne, hresp]
    simp [hstatus]
  · intro htransport
    simp only [convert_currency]
    rw [if_neg (by simp [hfrom, hto]), if_neg hne, htransport]

/-- Witness for C1 at amount 5, codes "usd"/"eur", and a collaborator whose
200 response carries no rate for "EUR". -/
theorem convert_currency_error_branches_witness :
    pyUpper (pyStrip "usd") ≠ "" ∧ pyUpper (pyStrip "eur") ≠ "" ∧
    pyUpper (pyStrip "usd") ≠ pyUpper (pyStrip "eur") ∧
    (convert_currency (fun _ _ => HttpOutcome.response 200 [] "2024-01-02" "USD")
      5 "usd" "eur").1 = CurrencyResult.error "unsupported_currency" :=
  ⟨by decide, by decide, by decide,
   (convert_currency_error_branches
      (fun _ _ => HttpOutcome.response 200 [] "2024-01-02" "USD")
      5 "usd" "eur" (by decide) (by decide) (by decide)).1
     [] "2024-01-02" "USD" rfl rfl⟩

/-- C6 counterexample: with both codes the empty string (a code over which
the claim universally quantifies), `convert_currency` returns the
`unsupported_currency` error, not a success with rate 1.0. -/
theorem convert_currency_empty_code_is_error :
    (convert_currency (fun _ _ => HttpOutcome.transportFailure) 5 "" "").1
      = CurrencyResult.error "unsupported_currency" := by decide

/-- C6 (amended): for every numeric amount and every code `X` that is
non-empty after normalization, `convert_currency(amt, X, X)` short-circuits
with rate 1.0 and `converted = amt`, making no call to the rate-lookup
collaborator (call count 0). -/
theorem convert_currency_same_code_identity
    (lookup : String → String → HttpOutcome) (amount : ℚ) (X : String)
    (h : pyUpper (pyStrip X) ≠ "") :
    convert_currency lookup amount X X =
      (CurrencyResult.ok amount (pyUpper (pyStrip X)) (pyUpper (pyStrip X))
        1 amount none none, 0) := by
  simp only [convert_currency]
  rw [if_neg (by simp [h])]
  simp

/-- Witness for C6 at amount 7 and code "usd". -/
theorem convert_currency_same_code_identity_witness :
    pyUpper (pyStrip "usd") ≠ "" ∧
    convert_currency (fun _ _ => HttpOutcome.transportFailure) 7 "usd" "usd" =
      (CurrencyResult.ok 7 "USD" "USD" 1 7 none none, 0) :=
  ⟨by decide,
   convert_currency_same_code_identity
     (fun _ _ => HttpOutcome.transportFailure) 7 "usd" (by decide)⟩

/-! ## Orchestrator lemmas -/

theorem run_loop_requests_le (collab : Collaborators)
    (model : List Message → ModelResponse) :
    ∀ fuel messages, (run_loop collab model fuel messages).requests ≤ fuel := by
  intro fuel
  induction fuel with
  | zero => intro messages; simp [run_loop]
  | succ n ih =>
    intro messages
    cases hm : model messages with
    | text c => simp [run_loop, hm]
    | toolCall nm args =>
      simp only [run_loop, hm]
      exact Nat.succ_le_succ (ih _)

theorem run_loop_saturates (collab : Collaborators)
    (model : List Message → ModelResponse)
    (h : ∀ msgs, (model msgs).isToolCall = true) :
    ∀ fuel messages,
      (run_loop collab model fuel messages).result = FALLBACK ∧
      (run_loop collab model fuel messages).requests = fuel := by
  intro fuel
  induction fuel with
  | zero => intro messages; exact ⟨rfl, rfl⟩
  | succ n ih =>
    intro messages
    cases hm : model messages with
    | text c =>
      have := h messages
      rw [hm] at this
      simp [ModelResponse.isToolCall] at this
    | toolCall nm args =>
      simp only [run_loop, hm]
      exact ⟨(ih _).1, by rw [(ih _).2]⟩

/-- C2: for every behavior of the model collaborator, `run_conversation`
makes at most `max_tool_hops = 6` model requests; and if the collaborator
issues a tool call on every response, it terminates after exactly 6
iterations with the fixed fallback string. -/
theorem run_conversation_hop_cap (collab : Collaborators)
    (model : List Message → ModelResponse) (sys input : String) :
    (run_conversation collab model sys input).requests ≤ max_tool_hops ∧
    ((∀ msgs, (model msgs).isToolCall = true) →
      (run_conversation collab model sys input).result = FALLBACK ∧
      (run_conversation collab model sys input).requests = max_tool_hops) :=
  ⟨run_loop_requests_le collab model max_tool_hops _,
   fun h => run_loop_saturates collab model h max_tool_hops _⟩

/-- Witness for C2 with a concrete collaborator that issues a tool call on
every response. -/
theorem run_conversation_hop_cap_witness :
    (run_conversation offlineCollaborators alwaysToolCallModel
      "sys" "hello").result = FALLBACK ∧
    (run_conversation offlineCollaborators alwaysToolCallModel
      "sys" "hello").requests = max_tool_hops ∧
    (run_conversation offlineCollaborators alwaysToolCallModel
      "sys" "hello").requests ≤ max_tool_hops :=
  ⟨((run_conversation_hop_cap offlineCollaborators alwaysToolCallModel
      "sys" "hello").2 (fun _ => rfl)).1,
   ((run_conversation_hop_cap offlineCollaborators alwaysToolCallModel
      "sys" "hello").2 (fun _ => rfl)).2,
   (run_conversation_hop_cap offlineCollaborators alwaysToolCallModel
      "sys" "hello").1⟩

/-- C3 counterexample: with a model collaborator that issues one tool call
and then answers, the final message log is the seed plus only the tool-result
message — it contains no assistant tool-call message, contrary to the claim
that the assistant's tool-call message is appended before the tool result. -/
theorem run_conversation_appends_no_assistant_message :
    (run_conversation offlineCollaborators oneToolCallModel "sys" "user").log =
      [Message.system "sys", Message.user "user",
       Message.function "plan_trip"
         (_call_tool offlineCollaborators "plan_trip" emptyArgs)] ∧
    List.countP Message.isAssistant
      (run_conversation offlineCollaborators oneToolCallModel
        "sys" "user").log = 0 := by
  constructor
  · decide
  · decide

/-- C3 (amended): in every loop iteration whose model response carries a tool
call, the message log is extended append-only with exactly one new message,
the tool's JSON result tagged with the tool's name (the assistant's tool-call
message itself is not appended); globally, every message the loop ever
appends beyond the initial log is such a tool-result message. -/
theorem run_loop_append_only (collab : Collaborators)
    (model : List Message → ModelResponse) :
    (∀ fuel messages name args,
      model messages = ModelResponse.toolCall name args →
      run_loop collab model (fuel + 1) messages =
        (let rest := run_loop collab model fuel
            (messages ++ [Message.function name (_call_tool collab name args)])
         RunOutcome.mk rest.result (rest.requests + 1) rest.log)) ∧
    (∀ fuel messages, ∃ tail,
      (run_loop collab model fuel messages).log = messages ++ tail ∧
      ∀ m ∈ tail, ∃ nm out, m = Message.function nm out) := by
  constructor
  · intro fuel messages name args h
    simp only [run_loop, h]
  · intro fuel messages
    induction fuel generalizing messages with
    | zero => exact ⟨[], by simp [run_loop], by simp⟩
    | succ n ih =>
      cases hm : model messages with
      | text c => exact ⟨[], by simp [run_loop, hm], by simp⟩
      | toolCall nm args =>
        obtain ⟨tail, htail, hmem⟩ :=
          ih (messages ++ [Message.function nm (_call_tool collab nm args)])
        refine ⟨Message.function nm (_call_tool collab nm args) :: tail, ?_, ?_⟩
        · simp only [run_loop, hm]
          rw [htail]
          simp
        · intro m hmm
          rcases List.mem_cons.mp hmm with h | h
          · exact ⟨nm, _, h⟩
          · exact hmem m h

/-- Witness for C3 with a concrete always-tool-calling collaborator on the
empty log. -/
theorem run_loop_append_only_witness :
    run_loop offlineCollaborators alwaysToolCallModel 1 [] =
      (let rest := run_loop offlineCollaborators alwaysToolCallModel 0
          ([] ++ [Message.function "plan_trip"
            (_call_tool offlineCollaborators "plan_trip" emptyArgs)])
       RunOutcome.mk rest.result (rest.requests + 1) rest.log) :=
  (run_loop_append_only offlineCollaborators alwaysToolCallModel).1
    0 [] "plan_trip" emptyArgs rfl

/-- C9: for every tool name outside the known set and every argument
mapping, the dispatcher returns the `unknown_tool` error result, and the
orchestrator loop treats it like any tool result: it appends it and
continues with the next iteration. -/
theorem unknown_tool_handling (collab : Collaborators) (name : String)
    (args : ToolArgs) (model : List Message → ModelResponse) (fuel : Nat)
    (messages : List Message)
    (hname : name ∉ (["get_weather", "convert_units", "convert_currency",
      "plan_trip"] : List String)) :
    _call_tool collab name args = ToolOut.errorOut "unknown_tool" ∧
    (model messages = ModelResponse.toolCall name args →
      run_loop collab model (fuel + 1) messages =
        (let rest := run_loop collab model fuel
            (messages ++ [Message.function name (ToolOut.errorOut "unknown_tool")])
         RunOutcome.mk rest.result (rest.requests + 1) rest.log)) := by
  simp only [List.mem_cons, List.not_mem_nil, or_false, not_or] at hname
  obtain ⟨h1, h2, h3, h4⟩ := hname
  have hcall : _call_tool collab name args = ToolOut.errorOut "unknown_tool" := by
    simp only [_call_tool]
    rw [if_neg h1, if_neg h2, if_neg h3, if_neg h4]
  refine ⟨hcall, ?_⟩
  intro hm
  simp only [run_loop, hm, hcall]

/-- Witness for C9 at the unknown tool name "frobnicate". -/
theorem unknown_tool_handling_witness :
    ("frobnicate" : String) ∉ (["get_weather", "convert_units",
      "convert_currency", "plan_trip"] : List String) ∧
    _call_tool offlineCollaborators "frobnicate" emptyArgs =
      ToolOut.errorOut "unknown_tool" ∧
    run_loop offlineCollaborators
      (fun _ => ModelResponse.toolCall "frobnicate" emptyArgs) 1 [] =
      (let rest := run_loop offlineCollaborators
          (fun _ => ModelResponse.toolCall "frobnicate" emptyArgs) 0
          ([] ++ [Message.function "frobnicate" (ToolOut.errorOut "unknown_tool")])
       RunOutcome.mk rest.result (rest.requests + 1) rest.log) :=
  ⟨by decide,
   (unknown_tool_handling offlineCollaborators "frobnicate" emptyArgs
     (fun _ => ModelResponse.toolCall "frobnicate" emptyArgs) 0 []
     (by decide)).1,
   (unknown_tool_handling offlineCollaborators "frobnicate" emptyArgs
     (fun _ => ModelResponse.toolCall "frobnicate" emptyArgs) 0 []
     (by decide)).2 rfl⟩

/-- C7: for every non-empty destination and integer duration, `plan_trip`
clamps the duration into [1,30] (precisely to `max 1 (min d 30)`) and, when
the interests list is empty, defaults it to `["general"]`; in particular
`plan_trip "X" 45 []` returns duration 30 and interests `["general"]`. -/
theorem plan_trip_clamps_and_defaults :
    (∀ (dest : String) (d : Int) (ints : List String), dest ≠ "" →
      (plan_trip dest d ints).duration? = some (max 1 (min d 30)) ∧
      1 ≤ max 1 (min d 30) ∧ max 1 (min d 30) ≤ 30 ∧
      (ints = [] → (plan_trip dest d ints).interests? = some ["general"])) ∧
    (plan_trip "X" 45 []).duration? = some 30 ∧
    (plan_trip "X" 45 []).interests? = some ["general"] := by
  refine ⟨?_, by rfl, by rfl⟩
  intro dest d ints hdest
  refine ⟨?_, le_max_left _ _, max_le (by norm_num) (min_le_right _ _), ?_⟩
  · simp only [plan_trip]
    rw [if_neg hdest]
    rfl
  · intro hempty
    subst hempty
    simp only [plan_trip]
    rw [if_neg hdest]
    rfl

/-- Witness for C7 at destination "Paris", duration 45, empty interests. -/
theorem plan_trip_clamps_and_defaults_witness :
    ("Paris" : String) ≠ "" ∧
    (plan_trip "Paris" 45 []).duration? = some (max 1 (min 45 30)) ∧
    (plan_trip "Paris" 45 []).interests? = some ["general"] :=
  ⟨by decide,
   (plan_trip_clamps_and_defaults.1 "Paris" 45 [] (by decide)).1,
   (plan_trip_clamps_and_defaults.1 "Paris" 45 [] (by decide)).2.2.2 rfl⟩

/-- C8: for every valid itinerary request, day `d` (1-indexed, at list
position `j = d - 1`) has theme `interests[(d-1) mod k]` for the sanitized
interests of length `k`, and its morning/afternoon/evening activities are
the theme's list entries at indices `d*1 mod len`, `d*2 mod len`,
`d*3 mod len`. The embedding is a pure function, so identical inputs
reproduce identical output. -/
theorem plan_trip_day_formulas (dest : String) (d : Int) (ints : List String)
    (hdest : dest ≠ "") :
    ∃ itin, (plan_trip dest d ints).itinerary? = some itin ∧
      itin.length = (max 1 (min d 30)).toNat ∧
      ∀ j (hj : j < itin.length),
        itin.get ⟨j, hj⟩ =
          (let day_index := j + 1
           let ni := _sanitize_interests ints
           let theme := ni.getD ((day_index - 1) % ni.length) ""
           let idea_list :=
             (List.lookup theme _INTEREST_BANK).getD generalActivities
           ItineraryDay.mk day_index theme
             (idea_list.getD ((day_index * 1) % idea_list.length) "")
             (idea_list.getD ((day_index * 2) % idea_list.length) "")
             (idea_list.getD ((day_index * 3) % idea_list.length) "")) := by
  refine ⟨(List.range (max 1 (min d 30)).toNat).map (fun i =>
      let day_index := i + 1
      let ni := _sanitize_interests ints
      let theme := ni.getD ((day_index - 1) % ni.length) ""
      let idea_list := (List.lookup theme _INTEREST_BANK).getD generalActivities
      ItineraryDay.mk day_index theme
        (idea_list.getD ((day_index * 1) % idea_list.length) "")
        (idea_list.getD ((day_index * 2) % idea_list.length) "")
        (idea_list.getD ((day_index * 3) % idea_list.length) "")), ?_, ?_, ?_⟩
  · simp only [plan_trip]
    rw [if_neg hdest]
    rfl
  · simp
  · intro j hj
    simp only [List.get_eq_getElem, List.getElem_map, List.getElem_range]

/-- Witness for C8 at destination "Bali", duration 3, interests ["food"]. -/
theorem plan_trip_day_formulas_witness :
    ("Bali" : String) ≠ "" ∧
    (∃ itin, (plan_trip "Bali" 3 ["food"]).itinerary? = some itin ∧
      itin.length = (max 1 (min (3 : Int) 30)).toNat ∧
      ∀ j (hj : j < itin.length),
        itin.get ⟨j, hj⟩ =
          (let day_index := j + 1
           let ni := _sanitize_interests ["food"]
           let theme := ni.getD ((day_index - 1) % ni.length) ""
           let idea_list :=
             (List.lookup theme _INTEREST_BANK).getD generalActivities
           ItineraryDay.mk day_index theme
             (idea_list.getD ((day_index * 1) % idea_list.length) "")
             (idea_list.getD ((day_index * 2) % idea_list.length) "")
             (idea_list.getD ((day_index * 3) % idea_list.length) ""))) :=
  ⟨by decide, plan_trip_day_formulas "Bali" 3 ["food"] (by decide)⟩

/-- C10: a dispatched `plan_trip` call whose argument mapping omits
`duration_days` but carries a non-empty destination gets the dispatcher
default 0, which `plan_trip` clamps to 1, yielding a successful 1-day
itinerary rather than an error. -/
theorem call_tool_plan_trip_missing_duration (collab : Collaborators)
    (args : ToolArgs) (dest : String)
    (hdest : args.destination = some dest) (hne : dest ≠ "")
    (hdur : args.duration_days = none) :
    _call_tool collab "plan_trip" args =
      ToolOut.tripOut (plan_trip dest 0 (args.interests.getD [])) ∧
    (plan_trip dest 0 (args.interests.getD [])).duration? = some 1 ∧
    ∃ itin, (plan_trip dest 0 (args.interests.getD [])).itinerary? = some itin ∧
      itin.length = 1 := by
  refine ⟨?_, ?_, ?_⟩
  · simp only [_call_tool]
    rw [if_neg (by decide), if_neg (by decide), if_neg (by decide)]
    rw [hdest, hdur]
    simp
  · simp only [plan_trip]
    rw [if_neg hne]
    norm_num [TripResult.duration?]
  · refine ⟨(List.range (max 1 (min (0:ℤ) 30)).toNat).map (fun i =>
        let day_index := i + 1
        let ni := _sanitize_interests (args.interests.getD [])
        let theme := ni.getD ((day_index - 1) % ni.length) ""
        let idea_list :=
          (List.lookup theme _INTEREST_BANK).getD generalActivities
        ItineraryDay.mk day_index theme
          (idea_list.getD ((day_index * 1) % idea_list.length) "")
          (idea_list.getD ((day_index * 2) % idea_list.length) "")
          (idea_list.getD ((day_index * 3) % idea_list.length) "")), ?_, ?_⟩
    · simp only [plan_trip]
      rw [if_neg hne]
      rfl
    · simp

/-- Witness for C10 with `destination = "Rome"` and every other argument
absent. -/
theorem call_tool_plan_trip_missing_duration_witness :
    (ToolArgs.mk none none none none none none none (some "Rome") none
      none).destination = some "Rome" ∧
    ("Rome" : String) ≠ "" ∧
    (ToolArgs.mk none none none none none none none (some "Rome") none
      none).duration_days = none ∧
    _call_tool offlineCollaborators "plan_trip"
      (ToolArgs.mk none none none none none none none (some "Rome") none none) =
      ToolOut.tripOut (plan_trip "Rome" 0
        ((ToolArgs.mk none none none none none none none (some "Rome") none
          none).interests.getD [])) ∧
    (plan_trip "Rome" 0
      ((ToolArgs.mk none none none none none none none (some "Rome") none
        none).interests.getD [])).duration? = some 1 :=
  ⟨rfl, by decide, rfl,
   (call_tool_plan_trip_missing_duration offlineCollaborators
     (ToolArgs.mk none none none none none none none (some "Rome") none none)
     "Rome" rfl (by decide) rfl).1,
   (call_tool_plan_trip_missing_duration offlineCollaborators
     (ToolArgs.mk none none none none none none none (some "Rome") none none)
     "Rome" rfl (by decide) rfl).2.1⟩
